import Mathlib

/-!
# Tangram-ES: client tile source and map tile

A shallow embedding of

* `core/include/tangram/data/clientTileSource.h` (class `ClientTileSource`), and
* `core/src/tile/mapTile.cpp` (class `MapTile`),

followed by the properties established about them.

Conventions of the embedding.

* The C++ `float` and `double` values that `MapTile` computes with are the elements of a
  type `F`, and their arithmetic is a parameter (`FloatOps F`): nothing is assumed about
  rounding, infinities or NaN, so what is proved holds for every arithmetic. Geographic
  coordinates in the feature store are only carried, never computed with.
* A `std::unique_ptr<T>` that may be null is an `Option T`.
* A `std::map`/`std::unordered_map` keyed by the style name is an association list
  with the semantics of `find`, `operator[]` and `size`.
* A member function that mutates the object returns the new object; calls into
  collaborators (shader, texture, mesh) are recorded as a list of call events.
-/

namespace Tangram

/-! ## Floating-point arithmetic and glm -/

/-- The floating-point operations `MapTile` uses, on a type `F` of `float`/`double`
values: the literals `0`, `1`, `2`, `0.5`, the conversions from `int` and `unsigned`,
the four operations, unary minus, `glm::abs`, the C library `log`, and the narrowing
of a `double` to a `float`. -/
structure FloatOps (F : Type) where
  zero : F
  one : F
  two : F
  half : F
  ofInt : Int → F
  ofNat : Nat → F
  add : F → F → F
  sub : F → F → F
  mul : F → F → F
  div : F → F → F
  neg : F → F
  abs : F → F
  log : F → F
  narrow : F → F

/-- The type `glm::dvec2`. -/
structure DVec2 (F : Type) where
  x : F
  y : F
  deriving DecidableEq, Repr

/-- The type `glm::dvec3`. -/
structure DVec3 (F : Type) where
  x : F
  y : F
  z : F
  deriving DecidableEq, Repr

/-- The type `glm::dvec4`. -/
structure DVec4 (F : Type) where
  x : F
  y : F
  z : F
  w : F
  deriving DecidableEq, Repr

/-- The type `glm::dmat4`, column-major as in glm: `c0 .. c3` are `m[0] .. m[3]`. -/
structure DMat4 (F : Type) where
  c0 : DVec4 F
  c1 : DVec4 F
  c2 : DVec4 F
  c3 : DVec4 F
  deriving DecidableEq, Repr

namespace glm

/-- Component-wise `dvec4 + dvec4`. -/
def add {F : Type} (ops : FloatOps F) (a b : DVec4 F) : DVec4 F :=
  ⟨ops.add a.x b.x, ops.add a.y b.y, ops.add a.z b.z, ops.add a.w b.w⟩

/-- The product `dvec4 * scalar`. -/
def smul {F : Type} (ops : FloatOps F) (a : DVec4 F) (s : F) : DVec4 F :=
  ⟨ops.mul a.x s, ops.mul a.y s, ops.mul a.z s, ops.mul a.w s⟩

/-- The constructor `glm::dmat4(s)`: `s` on the diagonal, zero elsewhere. -/
def dmat4 {F : Type} (ops : FloatOps F) (s : F) : DMat4 F :=
  ⟨⟨s, ops.zero, ops.zero, ops.zero⟩, ⟨ops.zero, s, ops.zero, ops.zero⟩,
   ⟨ops.zero, ops.zero, s, ops.zero⟩, ⟨ops.zero, ops.zero, ops.zero, s⟩⟩

/-- The constructor `glm::dvec3(s)`: all three components equal to `s`. -/
def dvec3 {F : Type} (s : F) : DVec3 F := ⟨s, s, s⟩

/-- The function `glm::translate(m, v)`: the first three columns are kept and
`Result[3] = m[0] * v[0] + m[1] * v[1] + m[2] * v[2] + m[3]`. -/
def translate {F : Type} (ops : FloatOps F) (m : DMat4 F) (v : DVec3 F) : DMat4 F :=
  { m with
    c3 := add ops (add ops (add ops (smul ops m.c0 v.x) (smul ops m.c1 v.y)) (smul ops m.c2 v.z))
      m.c3 }

/-- The function `glm::scale(m, v)`: `Result[i] = m[i] * v[i]` for `i < 3`, `Result[3] = m[3]`. -/
def scale {F : Type} (ops : FloatOps F) (m : DMat4 F) (v : DVec3 F) : DMat4 F :=
  ⟨smul ops m.c0 v.x, smul ops m.c1 v.y, smul ops m.c2 v.z, m.c3⟩

/-- One column of `dmat4 * dmat4`:
`a[0] * v[0] + a[1] * v[1] + a[2] * v[2] + a[3] * v[3]`, summed from the left. -/
def mulColumn {F : Type} (ops : FloatOps F) (a : DMat4 F) (v : DVec4 F) : DVec4 F :=
  add ops (add ops (add ops (smul ops a.c0 v.x) (smul ops a.c1 v.y)) (smul ops a.c2 v.z))
    (smul ops a.c3 v.w)

/-- The product `dmat4 * dmat4`: column `j` of the result is built from `b[j]`. -/
def mul {F : Type} (ops : FloatOps F) (a b : DMat4 F) : DMat4 F :=
  ⟨mulColumn ops a b.c0, mulColumn ops a b.c1, mulColumn ops a b.c2, mulColumn ops a b.c3⟩

end glm

/-! ## Collaborators seen through their interface -/

/-- A tile address `(x, y, z)`; `z` is the zoom level. -/
structure TileID where
  x : Int
  y : Int
  z : Int
  deriving DecidableEq, Repr

/-- The map projection, of which the tile only uses `TileBounds`; the result is
`[x: xmin, y: ymin, z: xmax, w: ymax]`. -/
structure MapProjection (F : Type) where
  TileBounds : TileID → DVec4 F

/-- A style, reduced to what `MapTile` asks of it: its name and its shader program. -/
structure Style where
  getName : String
  getShaderProgram : Nat
  deriving DecidableEq, Repr

/-- A view, reduced to what `MapTile` asks of it. -/
structure View (F : Type) where
  getWidth : F
  getHeight : F
  getViewProjectionMatrix : DMat4 F
  s_maxZoom : F
  deriving DecidableEq, Repr

/-- A mesh handle (`VboMesh`); only its identity matters here. -/
structure VboMesh where
  id : Nat
  deriving DecidableEq, Repr

/-- A transform texture, with the getters `MapTile::draw` reads. -/
structure Texture where
  getTextureSlot : Nat
  getWidth : Nat
  getHeight : Nat
  deriving DecidableEq, Repr

/-- A text label: font-stash id, owning font context, world position, rotation, alpha. -/
structure Label (F : Type) where
  m_id : Nat
  m_fontContext : Nat
  m_worldPosition : DVec2 F
  m_rotation : F
  m_alpha : F
  deriving DecidableEq, Repr

/-! ## The standard map keyed by style name -/

/-- A `std::map<std::string, β>` as an association list with distinct keys. -/
abbrev StdMap (β : Type) := List (String × β)

namespace StdMap

/-- The member `find`: the value stored under `k`, if any. -/
def find {β : Type} (m : StdMap β) (k : String) : Option β :=
  match m with
  | [] => none
  | (k0, v) :: rest => if k0 = k then some v else find rest k

/-- The member `operator[]` used as an rvalue: the value under `k`; when `k` is absent
a value-initialised entry `dflt` is inserted first. Returns the value and the new map. -/
def index {β : Type} (dflt : β) (m : StdMap β) (k : String) : β × StdMap β :=
  match find m k with
  | some v => (v, m)
  | none => (dflt, m ++ [(k, dflt)])

/-- The statement `m[k] = v`: overwrite the entry under `k`, inserting it when absent. -/
def assign {β : Type} (m : StdMap β) (k : String) (v : β) : StdMap β :=
  match m with
  | [] => [(k, v)]
  | (k0, v0) :: rest => if k0 = k then (k0, v) :: rest else (k0, v0) :: assign rest k v

/-- The member `size`. -/
def size {β : Type} (m : StdMap β) : Nat := m.length

end StdMap

/-! ## MapTile -/

/-- The data members of `MapTile`. -/
structure MapTile (F : Type) where
  m_id : TileID
  m_projection : MapProjection F
  m_scale : F
  m_inverseScale : F
  m_tileOrigin : DVec2 F
  m_modelMatrix : DMat4 F
  m_geometry : StdMap (Option VboMesh)
  m_transformTextures : StdMap (Option Texture)
  m_labels : StdMap (List (Label F))
  m_textBuffer : StdMap Nat
  m_proxyCounter : Int

/-- The constructor `MapTile::MapTile(_id, _projection)` (a type and a function cannot
share the name, hence `new`). The maps start empty and the proxy counter at zero. -/
def MapTile.new {F : Type} (ops : FloatOps F) (_id : TileID) (_projection : MapProjection F) :
    MapTile F :=
  let bounds := _projection.TileBounds _id
  let m_scale := ops.mul ops.half (ops.abs (ops.sub bounds.x bounds.z))
  let m_inverseScale := ops.div ops.one m_scale
  let m_tileOrigin : DVec2 F :=
    ⟨ops.mul ops.half (ops.add bounds.x bounds.z),
     ops.mul (ops.neg ops.half) (ops.add bounds.y bounds.w)⟩
  let m0 := glm.dmat4 ops ops.one
  let m1 := glm.translate ops m0 ⟨m_tileOrigin.x, m_tileOrigin.y, ops.zero⟩
  let m2 := glm.scale ops m1 (glm.dvec3 m_scale)
  { m_id := _id
    m_projection := _projection
    m_scale := m_scale
    m_inverseScale := m_inverseScale
    m_tileOrigin := m_tileOrigin
    m_modelMatrix := m2
    m_geometry := []
    m_transformTextures := []
    m_labels := []
    m_textBuffer := []
    m_proxyCounter := 0 }

/-- The member `MapTile::addGeometry`: `m_geometry[_style.getName()] = std::move(_mesh)`. -/
def MapTile.addGeometry {F : Type} (t : MapTile F) (_style : Style) (_mesh : Option VboMesh) :
    MapTile F :=
  { t with m_geometry := StdMap.assign t.m_geometry _style.getName _mesh }

/-- The member `MapTile::addLabel`: push the label on the vector stored under the style
name (created empty when absent); always answers `true`. -/
def MapTile.addLabel {F : Type} (t : MapTile F) (_style : Style) (_label : Label F) :
    Bool × MapTile F :=
  let r := StdMap.index [] t.m_labels _style.getName
  (true, { t with m_labels := StdMap.assign r.2 _style.getName (r.1 ++ [_label]) })

/-- The member `MapTile::setTextureTransform`. -/
def MapTile.setTextureTransform {F : Type} (t : MapTile F) (_style : Style)
    (_texture : Option Texture) : MapTile F :=
  { t with m_transformTextures := StdMap.assign t.m_transformTextures _style.getName _texture }

/-- A call on a shader, texture or mesh made by `MapTile::draw`. -/
inductive GLCall (F : Type) where
  | textureUpdate (tex : Texture)
  | textureBind (tex : Texture)
  | setUniformi (shader : Nat) (name : String) (value : Nat)
  | setUniformf (shader : Nat) (name : String) (values : List F)
  | setUniformMatrix4f (shader : Nat) (name : String) (values : List F)
  | meshDraw (mesh : VboMesh) (shader : Nat)
  deriving DecidableEq, Repr

/-- The sixteen entries of a matrix in memory order (column after column). -/
def DMat4.values {F : Type} (m : DMat4 F) : List F :=
  [m.c0.x, m.c0.y, m.c0.z, m.c0.w, m.c1.x, m.c1.y, m.c1.z, m.c1.w,
   m.c2.x, m.c2.y, m.c2.z, m.c2.w, m.c3.x, m.c3.y, m.c3.z, m.c3.w]

/-- The member `MapTile::draw(_style, _view)`. Reading `m_geometry[name]` (and, when a mesh
is present, `m_transformTextures[name]`) creates a null entry when the name is absent.
The sixteen matrix entries and the depth offset are narrowed to `float`. Returns the tile
and the calls made. -/
def MapTile.draw {F : Type} (ops : FloatOps F) (t : MapTile F) (_style : Style)
    (_view : View F) : MapTile F × List (GLCall F) :=
  let g := StdMap.index none t.m_geometry _style.getName
  let t1 := { t with m_geometry := g.2 }
  match g.1 with
  | none => (t1, [])
  | some styleMesh =>
    let shader := _style.getShaderProgram
    let x := StdMap.index none t1.m_transformTextures _style.getName
    let t2 := { t1 with m_transformTextures := x.2 }
    let textureCalls :=
      match x.1 with
      | some texture =>
        [GLCall.textureUpdate texture,
         GLCall.textureBind texture,
         GLCall.setUniformi shader "u_transforms" texture.getTextureSlot,
         GLCall.setUniformf shader "u_tresolution"
           [ops.ofNat texture.getWidth, ops.ofNat texture.getHeight]]
      | none => []
    let modelViewProjMatrix := glm.mul ops _view.getViewProjectionMatrix t2.m_modelMatrix
    let fmvp := modelViewProjMatrix.values.map ops.narrow
    let offset :=
      if t2.m_proxyCounter > 0 then
        ops.narrow (ops.add ops.one
          (ops.log (ops.div (ops.add _view.s_maxZoom ops.one)
            (ops.sub (ops.add _view.s_maxZoom ops.one) (ops.ofInt t2.m_id.z)))))
      else
        ops.narrow (ops.add ops.one (ops.log (ops.add _view.s_maxZoom ops.two)))
    (t2,
      textureCalls
      ++ [GLCall.setUniformMatrix4f shader "u_modelViewProj" fmvp,
          GLCall.setUniformf shader "u_tileDepthOffset" [offset],
          GLCall.meshDraw styleMesh shader])

/-- The member `MapTile::hasGeometry`: `m_geometry.size() != 0`. -/
def MapTile.hasGeometry {F : Type} (t : MapTile F) : Bool :=
  StdMap.size t.m_geometry != 0

/-! ## ClientTileSource

The header declares the class; of its members only `mimeType` and `cancelLoadingTile`
have a body there, and `m_hasPendingData`, `m_generateCentroids` have initialisers.
The remaining members are declared in the header and defined elsewhere. -/

/-- A geographic position (`LngLat`). -/
structure LngLat where
  longitude : ℚ
  latitude : ℚ
  deriving DecidableEq, Repr

/-- A path of positions (`Coordinates`). -/
abbrev Coordinates := List LngLat

/-- A property set (`Properties`): keys with their values. -/
abbrev Properties := List (String × String)

/-- The geometry of a feature. -/
inductive Geometry where
  | Point (p : LngLat)
  | LineString (line : Coordinates)
  | Polygon (rings : List Coordinates)
  deriving DecidableEq, Repr

/-- A feature: a property set and a geometry. -/
structure Feature where
  props : Properties
  geometry : Geometry
  deriving DecidableEq, Repr

/-- The feature store (`ClientTileData`): the ordered sequence of features. -/
structure ClientTileData where
  features : List Feature
  deriving DecidableEq, Repr

/-- The data members of `ClientTileSource` (the mutex is not part of the sequential
state), together with the name and url handed to the base class. -/
structure ClientTileSource where
  m_name : String
  m_url : String
  m_store : ClientTileData
  m_hasPendingData : Bool
  m_generateCentroids : Bool
  m_platform : Nat
  deriving DecidableEq, Repr

/-- Modelled from the spec: the type `TileTask`, declared outside the header. It identifies
(TileID, sourceID, subTaskIndex) and holds a cancellation flag and a result payload. -/
structure TileTask where
  tileID : TileID
  sourceID : String
  subTask : Int
  canceled : Bool
  payload : Option (List Feature)
  deriving DecidableEq, Repr

/-- The state a call on the source can reach: the source itself and the tasks that were
created for it and are still alive. -/
structure World where
  source : ClientTileSource
  tasks : List TileTask
  deriving DecidableEq, Repr

/-- Modelled from the spec: the kinds of error of section 7. -/
inductive ErrorKind where
  | DecodeError
  | DegenerateGeometry
  deriving DecidableEq, Repr

/-- Modelled from the spec: the outcome variants a load callback receives
(section 9: Completed(data), Empty, Canceled, Error(kind)). -/
inductive Outcome where
  | Completed (data : List Feature)
  | Empty
  | Canceled
  | Error (kind : ErrorKind)
  deriving DecidableEq, Repr

namespace ClientTileSource

/-- Modelled from the spec: the constructor, whose body is outside the header. The store
starts empty; the two flags carry their in-class initialiser and the constructor
argument respectively. -/
def new (_platform : Nat) (_name _url : String) (generateCentroids : Bool) : ClientTileSource :=
  { m_name := _name
    m_url := _url
    m_store := ⟨[]⟩
    m_hasPendingData := false
    m_generateCentroids := generateCentroids
    m_platform := _platform }

/-- The member `mimeType() const`, defined in the header:
`return "application/geo+json";`. -/
def mimeType (_self : ClientTileSource) : String := "application/geo+json"

/-- The member `cancelLoadingTile(const TileID&)`, defined in the header with the empty
body. -/
def cancelLoadingTile (self : ClientTileSource) (_tile : TileID) : ClientTileSource := self

/-- Modelled from the spec: `addPoint`, whose body is outside the header. Appends a point
feature and raises the pending flag. -/
def addPoint (self : ClientTileSource) (_tags : Properties) (_point : LngLat) :
    ClientTileSource :=
  { self with
    m_store := ⟨self.m_store.features ++ [⟨_tags, Geometry.Point _point⟩]⟩
    m_hasPendingData := true }

/-- Modelled from the spec: `addLine`, whose body is outside the header. Appends a line
feature and raises the pending flag. -/
def addLine (self : ClientTileSource) (_tags : Properties) (_line : Coordinates) :
    ClientTileSource :=
  { self with
    m_store := ⟨self.m_store.features ++ [⟨_tags, Geometry.LineString _line⟩]⟩
    m_hasPendingData := true }

/-- Modelled from the spec: `addPoly`, whose body is outside the header. Appends a polygon
feature and raises the pending flag. -/
def addPoly (self : ClientTileSource) (_tags : Properties) (_poly : List Coordinates) :
    ClientTileSource :=
  { self with
    m_store := ⟨self.m_store.features ++ [⟨_tags, Geometry.Polygon _poly⟩]⟩
    m_hasPendingData := true }

/-- Modelled from the spec: `addData`, whose body is outside the header. The external
decoder is the parameter `decode` (`none` on a malformed payload). A malformed payload
yields a decode error and leaves the source as it was; otherwise the decoded features are
appended the same way as by the other mutators. -/
def addData (decode : String → Option (List Feature)) (self : ClientTileSource)
    (_data : String) : Except ErrorKind Unit × ClientTileSource :=
  match decode _data with
  | none => (Except.error ErrorKind.DecodeError, self)
  | some fs =>
    (Except.ok (),
      { self with
        m_store := ⟨self.m_store.features ++ fs⟩
        m_hasPendingData := true })

/-- Modelled from the spec: `generateLabelCentroidFeature`, whose body is outside the
header. For each suitable feature already in the store (those on which the parameter
`centroid` answers) a centroid point feature is appended. -/
def generateLabelCentroidFeature (centroid : Feature → Option Feature)
    (self : ClientTileSource) : ClientTileSource :=
  { self with
    m_store := ⟨self.m_store.features ++ self.m_store.features.filterMap centroid⟩ }

/-- Modelled from the spec: `buildTiles`, whose body is outside the header. Triggers
`generateLabelCentroidFeature` once if enabled, then resets the pending flag. -/
def buildTiles (centroid : Feature → Option Feature) (self : ClientTileSource) :
    ClientTileSource :=
  let s1 := if self.m_generateCentroids then generateLabelCentroidFeature centroid self else self
  { s1 with m_hasPendingData := false }

/-- Modelled from the spec: `clearData`, whose body is outside the header. Empties the
store and resets the pending flag. -/
def clearData (self : ClientTileSource) : ClientTileSource :=
  { self with
    m_store := ⟨[]⟩
    m_hasPendingData := false }

/-- Modelled from the spec: `createTask`, whose body is outside the header. Allocates a
task for the tile and sub-task index, not canceled and without payload. -/
def createTask (self : ClientTileSource) (_tileId : TileID) (_subTask : Int) : TileTask :=
  { tileID := _tileId
    sourceID := self.m_name
    subTask := _subTask
    canceled := false
    payload := none }

/-- Modelled from the spec: `loadTileData`, whose body is outside the header. The result
is the sequence of callback invocations. For a task whose cancellation flag is set the
callback fires once with Canceled, or not at all when the cancellation raced ahead of
dispatch (`raced`). Otherwise the store is clipped to the tile by the external clipper
`clip` and the callback fires exactly once, with Empty when nothing is left and with
Completed otherwise. -/
def loadTileData (clip : List Feature → TileID → List Feature) (raced : Bool)
    (self : ClientTileSource) (_task : TileTask) : List Outcome :=
  if _task.canceled then
    if raced then [] else [Outcome.Canceled]
  else
    let data := clip self.m_store.features _task.tileID
    if data.isEmpty then [Outcome.Empty] else [Outcome.Completed data]

end ClientTileSource

/-- A call of `cancelLoadingTile` seen from the whole state: the member can only reach its
own object, so the tasks are carried over. -/
def World.cancelLoadingTile (w : World) (_tile : TileID) : World :=
  { w with source := w.source.cancelLoadingTile _tile }

/-- The calls a client can make on the source between construction and inspection. -/
inductive Call where
  | addPoint (_tags : Properties) (_point : LngLat)
  | addLine (_tags : Properties) (_line : Coordinates)
  | addPoly (_tags : Properties) (_poly : List Coordinates)
  | addData (_data : String)
  | buildTiles
  | clearData
  deriving DecidableEq, Repr

/-- The effect of one call on the source. -/
def Call.apply (decode : String → Option (List Feature)) (centroid : Feature → Option Feature)
    (s : ClientTileSource) : Call → ClientTileSource
  | Call.addPoint t p => s.addPoint t p
  | Call.addLine t l => s.addLine t l
  | Call.addPoly t r => s.addPoly t r
  | Call.addData d => (s.addData decode d).2
  | Call.buildTiles => s.buildTiles centroid
  | Call.clearData => s.clearData

/-- The source after a sequence of calls, oldest first. -/
def runCalls (decode : String → Option (List Feature)) (centroid : Feature → Option Feature)
    (s : ClientTileSource) (calls : List Call) : ClientTileSource :=
  calls.foldl (Call.apply decode centroid) s

/-- Whether a call is one of the four mutators `addPoint`, `addLine`, `addPoly`,
`addData`, whatever its arguments. -/
def Call.isMutationCall : Call → Bool
  | Call.addPoint _ _ => true
  | Call.addLine _ _ => true
  | Call.addPoly _ _ => true
  | Call.addData _ => true
  | Call.buildTiles => false
  | Call.clearData => false

/-- Whether a call mutates the store: an `addPoint`, `addLine`, `addPoly`, or an `addData`
whose payload decodes. -/
def Call.isMutation (decode : String → Option (List Feature)) : Call → Bool
  | Call.addPoint _ _ => true
  | Call.addLine _ _ => true
  | Call.addPoly _ _ => true
  | Call.addData d => (decode d).isSome
  | Call.buildTiles => false
  | Call.clearData => false

/-! ## Definitions used to state the properties -/

/-- The expressions built from the floating-point operations: a value is the expression
that computes it, with no arithmetic law assumed. -/
inductive FloatTerm where
  | zero
  | one
  | two
  | half
  | ofInt (i : Int)
  | ofNat (n : Nat)
  | add (a b : FloatTerm)
  | sub (a b : FloatTerm)
  | mul (a b : FloatTerm)
  | div (a b : FloatTerm)
  | neg (a : FloatTerm)
  | abs (a : FloatTerm)
  | log (a : FloatTerm)
  | narrow (a : FloatTerm)
  deriving DecidableEq, Repr

/-- The arithmetic on expressions, used to evaluate examples; the properties are proved
for every arithmetic. -/
def symbolicOps : FloatOps FloatTerm :=
  { zero := FloatTerm.zero
    one := FloatTerm.one
    two := FloatTerm.two
    half := FloatTerm.half
    ofInt := FloatTerm.ofInt
    ofNat := FloatTerm.ofNat
    add := FloatTerm.add
    sub := FloatTerm.sub
    mul := FloatTerm.mul
    div := FloatTerm.div
    neg := FloatTerm.neg
    abs := FloatTerm.abs
    log := FloatTerm.log
    narrow := FloatTerm.narrow }

/-- A projection answering the same bounds for every tile. -/
def constProjection {F : Type} (bounds : DVec4 F) : MapProjection F := ⟨fun _ => bounds⟩

/-- A decoder that rejects every payload. -/
def rejectAll : String → Option (List Feature) := fun _ => none

/-- A centroid function that finds no feature suitable. -/
def noCentroid : Feature → Option Feature := fun _ => none

/-- A clipper for a tile covering every stored feature: all features are kept. -/
def keepAll : List Feature → TileID → List Feature := fun fs _ => fs

/-- A point feature named "A" at the origin. -/
def featureA : Feature := ⟨[("name", "A")], Geometry.Point ⟨0, 0⟩⟩

/-- A source holding `featureA`, with its tiles built. -/
def sourceA : ClientTileSource :=
  ((ClientTileSource.new 0 "client" "" false).addPoint [("name", "A")] ⟨0, 0⟩).buildTiles
    noCentroid

/-- The world tile at zoom 0. -/
def tile0 : TileID := ⟨0, 0, 0⟩

/-- A task created by `sourceA` for `tile0`. -/
def taskA : TileTask := sourceA.createTask tile0 0

/-- The world made of `sourceA` and `taskA`. -/
def worldA : World := ⟨sourceA, [taskA]⟩

/-- A style named "text" with shader 1. -/
def textStyle : Style := ⟨"text", 1⟩

/-- A 800 by 600 view with the identity view-projection matrix. -/
def view0 : View FloatTerm :=
  ⟨FloatTerm.ofNat 800, FloatTerm.ofNat 600, glm.dmat4 symbolicOps FloatTerm.one,
   FloatTerm.ofNat 18⟩

/-- A freshly constructed tile, for the bounds `(0, 0, 2, 4)`. -/
def freshTile : MapTile FloatTerm :=
  MapTile.new symbolicOps tile0
    (constProjection ⟨FloatTerm.zero, FloatTerm.zero, FloatTerm.two, FloatTerm.ofNat 4⟩)

/-! ## Auxiliary lemmas -/

theorem StdMap.find_append_absent {β : Type} (m : StdMap β) (k : String) (v : β)
    (h : StdMap.find m k = none) : StdMap.find (m ++ [(k, v)]) k = some v := by
  induction m with
  | nil => simp [StdMap.find]
  | cons e rest ih =>
    obtain ⟨k0, v0⟩ := e
    simp only [StdMap.find] at h
    simp only [List.cons_append, StdMap.find]
    split
    · rename_i hk
      simp [hk] at h
    · rename_i hk
      simp only [hk, if_false] at h
      exact ih h

theorem StdMap.assign_ne_nil {β : Type} (m : StdMap β) (k : String) (v : β) :
    StdMap.assign m k v ≠ [] := by
  cases m with
  | nil => simp [StdMap.assign]
  | cons e rest =>
    obtain ⟨k0, v0⟩ := e
    simp only [StdMap.assign]
    split <;> simp

theorem Call.apply_pending (decode : String → Option (List Feature))
    (centroid : Feature → Option Feature) (s : ClientTileSource) (c : Call) :
    (Call.apply decode centroid s c).m_hasPendingData =
      (if c = Call.buildTiles ∨ c = Call.clearData then false
       else s.m_hasPendingData || c.isMutation decode) := by
  cases c with
  | addPoint t p => simp [Call.apply, ClientTileSource.addPoint, Call.isMutation]
  | addLine t l => simp [Call.apply, ClientTileSource.addLine, Call.isMutation]
  | addPoly t r => simp [Call.apply, ClientTileSource.addPoly, Call.isMutation]
  | addData d =>
    simp only [Call.apply, ClientTileSource.addData, Call.isMutation]
    cases hd : decode d <;> simp
  | buildTiles => simp [Call.apply, ClientTileSource.buildTiles]
  | clearData => simp [Call.apply, ClientTileSource.clearData]

theorem Call.isMutation_not_reset (decode : String → Option (List Feature)) (c : Call)
    (h : c.isMutation decode = true) : ¬ (c = Call.buildTiles ∨ c = Call.clearData) := by
  rintro (rfl | rfl) <;> simp [Call.isMutation] at h

theorem runCalls_concat (decode : String → Option (List Feature))
    (centroid : Feature → Option Feature) (s : ClientTileSource) (calls : List Call) (c : Call) :
    runCalls decode centroid s (calls ++ [c]) =
      Call.apply decode centroid (runCalls decode centroid s calls) c := by
  simp [runCalls, List.foldl_append]

theorem runCalls_pending_iff (decode : String → Option (List Feature))
    (centroid : Feature → Option Feature) (s : ClientTileSource)
    (hs : s.m_hasPendingData = false) (calls : List Call) :
    (runCalls decode centroid s calls).m_hasPendingData = true ↔
      ∃ pre c post, calls = pre ++ c :: post ∧ c.isMutation decode = true ∧
        Call.buildTiles ∉ post ∧ Call.clearData ∉ post := by
  induction calls using List.reverseRecOn with
  | nil =>
    constructor
    · intro h
      simp [runCalls, hs] at h
    · rintro ⟨pre, c, post, h, _⟩
      simp at h
  | append_singleton init c ih =>
    rw [runCalls_concat, Call.apply_pending]
    constructor
    · intro h
      by_cases hr : c = Call.buildTiles ∨ c = Call.clearData
      · rw [if_pos hr] at h
        exact absurd h (by simp)
      · rw [if_neg hr, Bool.or_eq_true] at h
        have hr1 := (not_or.mp hr).1
        have hr2 := (not_or.mp hr).2
        rcases h with h | h
        · obtain ⟨pre, c0, post, hcalls, hmut, hb, hc⟩ := ih.mp h
          refine ⟨pre, c0, post ++ [c], ?_, hmut, ?_, ?_⟩
          · rw [hcalls]
            simp
          · simp only [List.mem_append, List.mem_singleton, not_or]
            exact ⟨hb, fun e => hr1 e.symm⟩
          · simp only [List.mem_append, List.mem_singleton, not_or]
            exact ⟨hc, fun e => hr2 e.symm⟩
        · exact ⟨init, c, [], rfl, h, by simp, by simp⟩
    · rintro ⟨pre, c0, post, hcalls, hmut, hb, hc⟩
      rcases List.eq_nil_or_concat post with hp | ⟨L, b, hp⟩
      · subst hp
        have hinj := List.append_inj' hcalls rfl
        have hcc : c = c0 := by simpa using hinj.2
        subst hcc
        rw [if_neg (Call.isMutation_not_reset decode c hmut), hmut]
        simp
      · rw [List.concat_eq_append] at hp
        subst hp
        have hcalls2 : init ++ [c] = (pre ++ c0 :: L) ++ [b] := by
          rw [hcalls]
          simp
        have hinj := List.append_inj' hcalls2 rfl
        have hcb : c = b := by simpa using hinj.2
        subst hcb
        have hb1 : Call.buildTiles ∉ L := fun hm => hb (List.mem_append_left _ hm)
        have hc1 : Call.clearData ∉ L := fun hm => hc (List.mem_append_left _ hm)
        have hnb : c ≠ Call.buildTiles := fun e => hb (by simp [e])
        have hnc : c ≠ Call.clearData := fun e => hc (by simp [e])
        have hbefore := ih.mpr ⟨pre, c0, L, hinj.1, hmut, hb1, hc1⟩
        rw [if_neg (not_or.mpr ⟨hnb, hnc⟩), hbefore]
        simp

/-! ## Properties of ClientTileSource -/

/-- C1: `cancelLoadingTile(tileID)` is a no-op for the client variant. For every state and
every tile id the source is returned as it was, so the feature store, the pending-data
flag and the generate-centroids flag are identical before and after the call, and the
tasks (hence every task's state) are the same. -/
theorem cancelLoadingTile_noop (w : World) (tile : TileID) :
    w.source.cancelLoadingTile tile = w.source ∧
    (w.cancelLoadingTile tile).source.m_store = w.source.m_store ∧
    (w.cancelLoadingTile tile).source.m_hasPendingData = w.source.m_hasPendingData ∧
    (w.cancelLoadingTile tile).source.m_generateCentroids = w.source.m_generateCentroids ∧
    (w.cancelLoadingTile tile).tasks = w.tasks :=
  ⟨rfl, rfl, rfl, rfl, rfl⟩

/-- C2 as stated fails: `taskA` is a task of `sourceA` for `tile0`; after
`cancelLoadingTile(tile0)` the task is still there with its cancellation flag down, and
dispatching it through `loadTileData` fires the callback with Completed. -/
theorem cancelLoadingTile_then_load_completes :
    taskA ∈ worldA.tasks ∧
    taskA.tileID = tile0 ∧
    taskA ∈ (worldA.cancelLoadingTile tile0).tasks ∧
    ClientTileSource.loadTileData keepAll false (worldA.cancelLoadingTile tile0).source taskA
      = [Outcome.Completed [featureA]] := by
  refine ⟨?_, rfl, ?_, ?_⟩
  · simp [worldA]
  · simp [worldA, World.cancelLoadingTile]
  · simp [ClientTileSource.loadTileData, taskA, ClientTileSource.createTask, worldA,
      World.cancelLoadingTile, ClientTileSource.cancelLoadingTile, sourceA,
      ClientTileSource.buildTiles, ClientTileSource.addPoint, ClientTileSource.new, keepAll,
      featureA]

/-- C2, amended: for every task whose cancellation flag is set when `loadTileData`
dispatches it, the callback is either never invoked or invoked exactly once with Canceled,
and never with Completed. `cancelLoadingTile` of the client variant sets no flag: every
task is after the call what it was before, and the dispatch of any task gives the same
callback invocations with or without a preceding `cancelLoadingTile`. -/
theorem canceled_task_never_completes (clip : List Feature → TileID → List Feature)
    (raced : Bool) (w : World) (tile : TileID) (task : TileTask)
    (h : task.canceled = true) :
    (ClientTileSource.loadTileData clip raced w.source task = [] ∨
      ClientTileSource.loadTileData clip raced w.source task = [Outcome.Canceled]) ∧
    (∀ d, Outcome.Completed d ∉ ClientTileSource.loadTileData clip raced w.source task) ∧
    (w.cancelLoadingTile tile).tasks = w.tasks ∧
    (∀ t : TileTask,
      ClientTileSource.loadTileData clip raced (w.cancelLoadingTile tile).source t =
        ClientTileSource.loadTileData clip raced w.source t) := by
  refine ⟨?_, ?_, rfl, fun _ => rfl⟩
  · cases raced <;> simp [ClientTileSource.loadTileData, h]
  · intro d
    cases raced <;> simp [ClientTileSource.loadTileData, h]

/-- The amended C2 at a concrete input: `taskA` with its flag set, dispatched on `worldA`
without a race, fires the callback once with Canceled. -/
theorem canceled_task_never_completes_witness :
    ({ taskA with canceled := true } : TileTask).canceled = true ∧
    ClientTileSource.loadTileData keepAll false worldA.source { taskA with canceled := true }
      = [Outcome.Canceled] ∧
    Outcome.Completed [featureA] ∉
      ClientTileSource.loadTileData keepAll false worldA.source { taskA with canceled := true } :=
  ⟨rfl, by simp [ClientTileSource.loadTileData],
    (canceled_task_never_completes keepAll false worldA tile0 { taskA with canceled := true }
      rfl).2.1 [featureA]⟩

/-- C3: for every store state and every malformed payload (one the decoder rejects),
`addData` reports a decode error to its caller and leaves the source unchanged: the
feature sequence, and so the feature count, after the call equal the ones before it. -/
theorem addData_malformed_unchanged (decode : String → Option (List Feature))
    (self : ClientTileSource) (data : String) (h : decode data = none) :
    (self.addData decode data).1 = Except.error ErrorKind.DecodeError ∧
    (self.addData decode data).2 = self ∧
    (self.addData decode data).2.m_store.features = self.m_store.features ∧
    (self.addData decode data).2.m_store.features.length = self.m_store.features.length := by
  simp [ClientTileSource.addData, h]

/-- C3 at a concrete input: `sourceA` holds one feature; a payload the decoder rejects
gives a decode error and leaves that one feature. -/
theorem addData_malformed_unchanged_witness :
    rejectAll "not a feature collection" = none ∧
    (sourceA.addData rejectAll "not a feature collection").1
      = Except.error ErrorKind.DecodeError ∧
    (sourceA.addData rejectAll "not a feature collection").2.m_store.features = [featureA] := by
  have h := addData_malformed_unchanged rejectAll sourceA "not a feature collection" rfl
  refine ⟨rfl, h.1, ?_⟩
  rw [h.2.2.1]
  simp [sourceA, ClientTileSource.buildTiles, ClientTileSource.addPoint, ClientTileSource.new,
    featureA]

/-- C4 as stated fails: after `addPoint` then `clearData` on a fresh source a mutation has
occurred since the last `buildTiles` (there was none), yet the pending flag is false.
Likewise after an `addData` whose payload the decoder rejects. -/
theorem pending_false_after_clearData :
    (∃ pre c post, [Call.addPoint [] ⟨0, 0⟩, Call.clearData] = pre ++ c :: post ∧
      c.isMutationCall = true ∧ Call.buildTiles ∉ post) ∧
    (runCalls rejectAll noCentroid (ClientTileSource.new 0 "client" "" false)
      [Call.addPoint [] ⟨0, 0⟩, Call.clearData]).m_hasPendingData = false ∧
    (∃ pre c post, [Call.addData "not a feature collection"] = pre ++ c :: post ∧
      c.isMutationCall = true ∧ Call.buildTiles ∉ post) ∧
    (runCalls rejectAll noCentroid (ClientTileSource.new 0 "client" "" false)
      [Call.addData "not a feature collection"]).m_hasPendingData = false := by
  refine ⟨⟨[], Call.addPoint [] ⟨0, 0⟩, [Call.clearData], rfl, rfl, by simp⟩, ?_,
    ⟨[], Call.addData "not a feature collection", [], rfl, rfl, by simp⟩, ?_⟩
  · simp [runCalls, Call.apply, ClientTileSource.clearData]
  · simp [runCalls, Call.apply, ClientTileSource.addData, rejectAll, ClientTileSource.new]

/-- C4, amended: in every state reachable from a freshly constructed source by any
sequence of `addPoint`, `addLine`, `addPoly`, `addData`, `buildTiles` and `clearData`
calls, the pending flag is true if and only if at least one mutation (an `addPoint`,
`addLine`, `addPoly`, or an `addData` whose payload decodes) has occurred since the last
`buildTiles` or `clearData`: some call of the sequence is such a mutation and no
`buildTiles` or `clearData` comes after it. The flag is false on a freshly constructed
source and false immediately after `buildTiles`. -/
theorem pending_iff_mutated_since_reset (decode : String → Option (List Feature))
    (centroid : Feature → Option Feature) (platform : Nat) (name url : String)
    (generateCentroids : Bool) (calls : List Call) :
    ((runCalls decode centroid (ClientTileSource.new platform name url generateCentroids)
        calls).m_hasPendingData = true ↔
      ∃ pre c post, calls = pre ++ c :: post ∧ c.isMutation decode = true ∧
        Call.buildTiles ∉ post ∧ Call.clearData ∉ post) ∧
    (ClientTileSource.new platform name url generateCentroids).m_hasPendingData = false ∧
    (runCalls decode centroid (ClientTileSource.new platform name url generateCentroids)
        (calls ++ [Call.buildTiles])).m_hasPendingData = false := by
  refine ⟨runCalls_pending_iff decode centroid _ rfl calls, rfl, ?_⟩
  rw [runCalls_concat, Call.apply_pending]
  simp

/-- C5: in every state `mimeType()` returns the constant string "application/geo+json";
the result is the same for any two sources, whatever their store, pending flag or
constructor arguments. The member is `const` and is a function of the source alone. -/
theorem mimeType_constant (s s' : ClientTileSource) (platform : Nat) (name url : String)
    (generateCentroids : Bool) :
    s.mimeType = "application/geo+json" ∧
    s.mimeType = s'.mimeType ∧
    (ClientTileSource.new platform name url generateCentroids).mimeType
      = "application/geo+json" :=
  ⟨rfl, rfl, rfl⟩

/-! ## Properties of MapTile -/

/-- C8: `draw(style, view)` on a tile whose geometry map has no entry for the style's name
performs no shader, texture or mesh call, but inserts a null entry for that name, so
`hasGeometry()` returns true afterwards even on a freshly constructed tile on which
`addGeometry` was never called; on a freshly constructed tile `hasGeometry()` returns
false, and after any `addGeometry` call it returns true. -/
theorem draw_inserts_null_entry {F : Type} (ops : FloatOps F) (t : MapTile F) (style : Style)
    (view : View F) (h : StdMap.find t.m_geometry style.getName = none) :
    (t.draw ops style view).2 = [] ∧
    StdMap.find (t.draw ops style view).1.m_geometry style.getName = some none ∧
    (t.draw ops style view).1.hasGeometry = true ∧
    (∀ (id : TileID) (proj : MapProjection F),
      (MapTile.new ops id proj).hasGeometry = false ∧
      ((MapTile.new ops id proj).draw ops style view).1.hasGeometry = true) ∧
    (∀ (t0 : MapTile F) (style0 : Style) (mesh : Option VboMesh),
      (t0.addGeometry style0 mesh).hasGeometry = true) := by
  have hd : t.draw ops style view =
      ({ t with m_geometry := t.m_geometry ++ [(style.getName, none)] }, []) := by
    simp [MapTile.draw, StdMap.index, h]
  refine ⟨?_, ?_, ?_, ?_, ?_⟩
  · rw [hd]
  · rw [hd]
    exact StdMap.find_append_absent _ _ _ h
  · rw [hd]
    simp [MapTile.hasGeometry, StdMap.size]
  · intro id proj
    constructor
    · simp [MapTile.hasGeometry, StdMap.size, MapTile.new]
    · simp [MapTile.hasGeometry, StdMap.size, MapTile.new, MapTile.draw, StdMap.index,
        StdMap.find]
  · intro t0 style0 mesh
    have hne := StdMap.assign_ne_nil t0.m_geometry style0.getName mesh
    simp only [MapTile.hasGeometry, StdMap.size, MapTile.addGeometry, bne_iff_ne, ne_eq,
      List.length_eq_zero]
    exact hne

/-- C8 at a concrete input: a freshly constructed tile has no entry for the style "text";
drawing it makes no call and leaves `hasGeometry()` true. -/
theorem draw_inserts_null_entry_witness :
    StdMap.find freshTile.m_geometry textStyle.getName = none ∧
    (freshTile.draw symbolicOps textStyle view0).2 = [] ∧
    (freshTile.draw symbolicOps textStyle view0).1.hasGeometry = true :=
  ⟨rfl,
    (draw_inserts_null_entry symbolicOps freshTile textStyle view0 rfl).1,
    (draw_inserts_null_entry symbolicOps freshTile textStyle view0 rfl).2.2.1⟩

end Tangram
